import Mathlib

/-!
Verification development for the store loyalty backend
(`backend/app/utils/receipt_parser.py`, `backend/app/utils/config.py`,
`backend/app/services/receipt_monitor.py`,
`backend/app/services/websocket_manager.py`).

The Python code is shallowly embedded: every definition below mirrors the
corresponding Python function, with monetary amounts as exact rationals
(the source regexes capture decimal literals with exactly two fraction
digits, so no floating-point rounding is observable in the properties
proved here), timestamps as rationals, stateful methods as explicit state
passing, and the event loop flattened to sequential composition.
-/

namespace Store

/-! ## Character-level helpers mirroring Python string semantics (ASCII). -/

/-- Python whitespace class used by the `\s` regex class and by `str.strip`. -/
def pySpace (c : Char) : Bool :=
  c = ' ' || c = '\t' || c = '\n' || c = '\r' || c = '\x0b' || c = '\x0c'

/-- Python regex word class `\w` over the ASCII texts handled here. -/
def wordChar (c : Char) : Bool :=
  c.isAlphanum || c = '_'

/-- Mirror of `str.strip()`: drop leading and trailing whitespace. -/
def pyStrip (cs : List Char) : List Char :=
  ((cs.dropWhile pySpace).reverse.dropWhile pySpace).reverse

/-- Mirror of `str.lower()` on ASCII text. -/
def pyLower (cs : List Char) : List Char :=
  cs.map Char.toLower

/-- Does the needle occur at the start of the haystack? -/
def startsWithChars : List Char → List Char → Bool
  | [], _ => true
  | _ :: _, [] => false
  | n :: ns, c :: cs => n = c && startsWithChars ns cs

/-- Mirror of the Python substring test `needle in hay`. -/
def containsChars (needle : List Char) : List Char → Bool
  | [] => startsWithChars needle []
  | c :: cs => startsWithChars needle (c :: cs) || containsChars needle cs

/-- Digit list to the natural number it denotes (most significant first). -/
def natOfDigits (ds : List Char) : Nat :=
  ds.foldl (fun acc c => 10 * acc + (c.toNat - 48)) 0

/-! ## Regex fragments of `receipt_parser.py`, compiled by hand.

Each Python pattern used by the parser is deterministic in the sense that
greedy matching with no backtracking agrees with the `re` engine (the
adjacent pieces consume disjoint character classes), except the item
pattern whose lazy group is treated explicitly below. `searchFrom` mirrors
`re.search`: try the anchored matcher at every start position, leftmost
first (including the end-of-string position, as `re.search` does). -/

def searchFrom (f : List Char → Option α) : List Char → Option α
  | [] => f []
  | c :: cs =>
    match f (c :: cs) with
    | some r => some r
    | none => searchFrom f cs

/-- Case-insensitive literal match, returning the rest of the input. -/
def stripLabelCI : List Char → List Char → Option (List Char)
  | [], s => some s
  | _ :: _, [] => none
  | l :: ls, c :: cs => if l.toLower = c.toLower then stripLabelCI ls cs else none

/-- Anchored match of the regex `\d+\.\d{2}`: greedy digit run, a dot and
exactly two digits; returns the integer digits, the two cent digits and
the rest of the input. -/
def matchMoney (s : List Char) : Option (List Char × List Char × List Char) :=
  let ds := s.takeWhile Char.isDigit
  match ds, s.dropWhile Char.isDigit with
  | [], _ => none
  | _ :: _, '.' :: a :: b :: rest =>
    if a.isDigit && b.isDigit then some (ds, [a, b], rest) else none
  | _ :: _, _ => none

/-- Exact rational value of a matched two-decimal amount (Python converts
the captured text with `float`; the claims only observe values on which
the two agree). -/
def moneyValue (ds cents : List Char) : ℚ :=
  (natOfDigits ds : ℚ) + (natOfDigits cents : ℚ) / 100

/-- Anchored match of one `TOTAL_PATTERNS` entry,
`LABEL\s*:?\s*\$?(\d+\.\d{2})` under `re.IGNORECASE`. -/
def matchTotalAt (label : List Char) (s : List Char) : Option ℚ :=
  (stripLabelCI label s).bind fun r1 =>
    let r2 := r1.dropWhile pySpace
    let r3 := match r2 with | ':' :: t => t | _ => r2
    let r4 := r3.dropWhile pySpace
    let r5 := match r4 with | '$' :: t => t | _ => r4
    (matchMoney r5).map fun m => moneyValue m.1 m.2.1

/-- The four labels of `ReceiptParser.TOTAL_PATTERNS`, in priority order. -/
def totalLabels : List (List Char) :=
  ["TOTAL".data, "Total".data, "AMOUNT".data, "Grand Total".data]

/-- Try each total pattern over the whole text, in priority order. -/
def totalSearch (text : List Char) : List (List Char) → ℚ
  | [] => 0
  | l :: ls =>
    match searchFrom (matchTotalAt l) text with
    | some q => q
    | none => totalSearch text ls

/-- Mirror of `ReceiptParser._extract_total`: first pattern with a match
anywhere in the text wins; no match yields `0.0`. -/
def extract_total (text : List Char) : ℚ :=
  totalSearch text totalLabels

/-- Anchored match of one `RECEIPT_ID_PATTERNS` entry,
`LABEL\s*#?\s*:?\s*([A-Z0-9]+)` under `re.IGNORECASE`. -/
def matchIdAt (label : List Char) (s : List Char) : Option (List Char) :=
  match stripLabelCI label s with
  | none => none
  | some r1 =>
    let r2 := r1.dropWhile pySpace
    let r3 := match r2 with | '#' :: t => t | _ => r2
    let r4 := r3.dropWhile pySpace
    let r5 := match r4 with | ':' :: t => t | _ => r4
    let r6 := r5.dropWhile pySpace
    match r6.takeWhile Char.isAlphanum with
    | [] => none
    | tok => some tok

/-- The four labels of `ReceiptParser.RECEIPT_ID_PATTERNS`. -/
def idLabels : List (List Char) :=
  ["Receipt".data, "Transaction".data, "REF".data, "Invoice".data]

/-- Try each receipt-id pattern over the whole text, in priority order. -/
def idSearch (text : List Char) : List (List Char) → Option String
  | [] => none
  | l :: ls =>
    match searchFrom (matchIdAt l) text with
    | some tok => some (String.mk tok)
    | none => idSearch text ls

/-- Mirror of `ReceiptParser._extract_receipt_id`. -/
def extract_receipt_id (text : List Char) : Option String :=
  idSearch text idLabels

/-- Take between one and two digits followed by the given separator,
greedily preferring two (regex `\d{1,2}` then a literal). -/
def matchD12Sep (sep : Char) (s : List Char) : Option (List Char × List Char) :=
  match s with
  | a :: b :: c :: rest =>
    if a.isDigit && b.isDigit && c = sep then some ([a, b], rest)
    else if a.isDigit && b = sep then some ([a], c :: rest)
    else none
  | a :: b :: rest =>
    if a.isDigit && b = sep then some ([a], rest) else none
  | _ => none

/-- Take exactly n digits. -/
def matchDigits (n : Nat) (s : List Char) : Option (List Char × List Char) :=
  let ds := s.take n
  if ds.length = n && ds.all Char.isDigit then some (ds, s.drop n) else none

/-- Anchored `(\d{1,2}/\d{1,2}/\d{4})`. -/
def matchDateSlash (s : List Char) : Option String :=
  match matchD12Sep '/' s with
  | none => none
  | some (g1, r1) =>
    match matchD12Sep '/' r1 with
    | none => none
    | some (g2, r2) =>
      match matchDigits 4 r2 with
      | none => none
      | some (g3, _) => some (String.mk (g1 ++ '/' :: g2 ++ '/' :: g3))

/-- Anchored `(\d{4}-\d{2}-\d{2})`. -/
def matchDateIso (s : List Char) : Option String :=
  match matchDigits 4 s with
  | none => none
  | some (g1, r1) =>
    match r1 with
    | '-' :: r2 =>
      match matchDigits 2 r2 with
      | none => none
      | some (g2, r3) =>
        match r3 with
        | '-' :: r4 =>
          match matchDigits 2 r4 with
          | none => none
          | some (g3, _) => some (String.mk (g1 ++ '-' :: g2 ++ '-' :: g3))
        | _ => none
    | _ => none

/-- Anchored `(\d{2}-\d{2}-\d{4})`. -/
def matchDateDmy (s : List Char) : Option String :=
  match matchDigits 2 s with
  | none => none
  | some (g1, r1) =>
    match r1 with
    | '-' :: r2 =>
      match matchDigits 2 r2 with
      | none => none
      | some (g2, r3) =>
        match r3 with
        | '-' :: r4 =>
          match matchDigits 4 r4 with
          | none => none
          | some (g3, _) => some (String.mk (g1 ++ '-' :: g2 ++ '-' :: g3))
        | _ => none
    | _ => none

/-- Mirror of `ReceiptParser._extract_date` (patterns tried in order,
each searched over the whole text, no IGNORECASE flag is involved). -/
def extract_date (text : List Char) : Option String :=
  match searchFrom matchDateSlash text with
  | some d => some d
  | none =>
    match searchFrom matchDateIso text with
    | some d => some d
    | none => searchFrom matchDateDmy text

/-- Anchored `(\d{1,2}:\d{2}:\d{2})`. -/
def matchTimeHms (s : List Char) : Option String :=
  match matchD12Sep ':' s with
  | none => none
  | some (g1, r1) =>
    match matchDigits 2 r1 with
    | none => none
    | some (g2, r2) =>
      match r2 with
      | ':' :: r3 =>
        match matchDigits 2 r3 with
        | none => none
        | some (g3, _) => some (String.mk (g1 ++ ':' :: g2 ++ ':' :: g3))
      | _ => none

/-- Anchored `(\d{1,2}:\d{2}\s*[AP]M)` (case sensitive, as in the source). -/
def matchTimeAmPm (s : List Char) : Option String :=
  match matchD12Sep ':' s with
  | none => none
  | some (g1, r1) =>
    match matchDigits 2 r1 with
    | none => none
    | some (g2, r2) =>
      let sp := r2.takeWhile pySpace
      match r2.dropWhile pySpace with
      | a :: 'M' :: _ =>
        if a = 'A' || a = 'P' then
          some (String.mk (g1 ++ ':' :: g2 ++ sp ++ [a, 'M']))
        else none
      | _ => none

/-- Mirror of `ReceiptParser._extract_time`. -/
def extract_time (text : List Char) : Option String :=
  match searchFrom matchTimeHms text with
  | some t => some t
  | none => searchFrom matchTimeAmPm text

/-! ## Item extraction.

The line pattern `(\w+.*?)\s+(\d+\.\d{2})` has a lazy middle group. At a
fixed start position, with `wmax` the maximal `\w` run there, the `re`
backtracking order explores the first-group length `k` in the order
`wmax, wmax+1, ..., L, wmax-1, wmax-2, ..., 1` (the greedy `\w+` part
shrinks only after every lazy extension has failed); the first `k` whose
offset is followed by `\s+` and then the price subpattern wins. -/

/-- Whitespace run then money, i.e. the suffix `\s+(\d+\.\d{2})` of the
first item pattern (with an optional literal dollar for the second). -/
def priceTailAt (dollar : Bool) (r : List Char) : Option ℚ :=
  match r.takeWhile pySpace with
  | [] => none
  | _ :: _ =>
    let r2 := r.dropWhile pySpace
    let r3 := if dollar then
        match r2 with
        | '$' :: t => some t
        | _ => none
      else some r2
    match r3 with
    | none => none
    | some r3 =>
      match matchMoney r3 with
      | some (ds, cents, _) => some (moneyValue ds cents)
      | none => none

/-- Anchored match of an item pattern at one start position, returning the
first captured group (the raw name text) and the price. -/
def itemMatchAt (dollar : Bool) (s : List Char) : Option (List Char × ℚ) :=
  let wmax := (s.takeWhile wordChar).length
  if wmax = 0 then none
  else
    let ks := List.range' wmax (s.length - wmax + 1) ++ (List.range' 1 (wmax - 1)).reverse
    ks.findSome? fun k =>
      if (s.take k).any (· = '\n') then none
      else
        match priceTailAt dollar (s.drop k) with
        | some q => some (s.take k, q)
        | none => none

/-- A parsed line item as stored by `ReceiptParser._extract_items`. -/
structure Item where
  name : String
  price : ℚ
  line : String
deriving DecidableEq, Repr

/-- The summary keywords that disqualify an item-candidate name. -/
def summaryKeywords : List (List Char) :=
  ["total".data, "subtotal".data, "tax".data, "change".data]

/-- Mirror of the per-line body of `ReceiptParser._extract_items`: try the
two patterns in order; a match whose name contains a summary keyword falls
through to the next pattern (the `continue`); the first surviving match is
the line item. -/
def itemOfLine (line : List Char) : Option Item :=
  let tryPat (dollar : Bool) : Option Item :=
    match searchFrom (itemMatchAt dollar) line with
    | none => none
    | some (rawName, price) =>
      let name := pyStrip rawName
      if summaryKeywords.any (fun k => containsChars k (pyLower name)) then none
      else some { name := String.mk name, price := price, line := String.mk line }
  match tryPat false with
  | some it => some it
  | none => tryPat true

/-- Split on the newline character, as Python `text.split('\n')`. -/
def splitLines (cs : List Char) : List (List Char) :=
  match cs with
  | [] => [[]]
  | '\n' :: rest => [] :: splitLines rest
  | c :: rest =>
    match splitLines rest with
    | [] => [[c]]
    | l :: ls => (c :: l) :: ls

/-- Mirror of `ReceiptParser._extract_items`: strip each line, skip empty
or shorter-than-5 lines, collect the surviving item of each line. -/
def extract_items (text : List Char) : List Item :=
  (splitLines text).foldr
    (fun rawLine acc =>
      let line := pyStrip rawLine
      if line.isEmpty || line.length < 5 then acc
      else
        match itemOfLine line with
        | some it => it :: acc
        | none => acc)
    []

/-! ## The full extractor and the validity predicate. -/

/-- The structured record produced by `ReceiptParser.parse_receipt`
(the `parsed_at` wall-clock field is omitted: no claim observes it). -/
structure ParsedReceipt where
  raw_text : String
  total : ℚ
  receipt_id : Option String
  date : Option String
  time : Option String
  items : List Item
  items_count : Nat
  error : Option String
deriving DecidableEq, Repr

/-- Mirror of `ReceiptParser.parse_receipt`. The Python body is a `try`
block whose handler returns a degraded record; `fault` models the caught
exception text (`none` is the normal, non-faulting path — the branch the
rest of the pipeline always takes). -/
def parse_receipt (fault : Option String) (receipt_text : String) : ParsedReceipt :=
  match fault with
  | some e =>
    { raw_text := receipt_text, total := 0, receipt_id := none, date := none,
      time := none, items := [], items_count := 0, error := some e }
  | none =>
    let items := extract_items receipt_text.data
    { raw_text := receipt_text
      total := extract_total receipt_text.data
      receipt_id := extract_receipt_id receipt_text.data
      date := extract_date receipt_text.data
      time := extract_time receipt_text.data
      items := items
      items_count := items.length
      error := none }

/-- The eight indicator keywords of `ReceiptParser.is_valid_receipt`. -/
def receiptIndicators : List (List Char) :=
  ["total".data, "receipt".data, "thank you".data, "transaction".data,
   "subtotal".data, "tax".data, "change".data, "payment".data]

/-- Number of indicator keywords occurring (as substrings, after
lowercasing) in the text. -/
def indicatorsFound (text : List Char) : Nat :=
  (receiptIndicators.filter (fun ind => containsChars ind (pyLower text))).length

/-- Mirror of `ReceiptParser.is_valid_receipt`. -/
def is_valid_receipt (receipt_text : String) : Bool :=
  if receipt_text.isEmpty || (pyStrip receipt_text.data).length < 20 then false
  else
    decide (2 ≤ indicatorsFound receipt_text.data)
      && decide (0 < extract_total receipt_text.data)

/-! ## Configuration (`config.py`).

Only the field the correlation core reads is carried; its Python default
is 30 seconds. Timestamps and durations are rationals (the source
subtracts `datetime` values and compares `total_seconds()` against the
configured window). -/

structure Settings where
  receipt_match_window_seconds : ℚ
deriving DecidableEq, Repr

/-- The global `settings` instance with the `config.py` default. -/
def settings : Settings :=
  { receipt_match_window_seconds := 30 }

/-! ## Session coordinator (`websocket_manager.py`).

A connection slot holds `none` (disconnected), `some true` (healthy) or
`some false` (a stale reference whose `send_json` raises). The `*Out`
lists record the messages successfully delivered to each peer, oldest
first. Clock values are passed explicitly where the source calls
`datetime.utcnow()`. -/

/-- The pending customer scan recorded by `_handle_customer_scan`. -/
structure Scan where
  barcode : String
  scanned_at : ℚ
deriving DecidableEq, Repr

/-- Messages sent to the identity-facing (tablet) peer, carrying the
fields the claims observe. -/
inductive TabletMsg where
  | setState (state : String)
  | showConfirmation (message : String) (ctype : String)
  | showError (message : String)
  | showCustomerInfo (barcode : String)
  | showPurchaseComplete (receipt : ParsedReceipt) (points_awarded : ℚ)
  | heartbeatAck
deriving DecidableEq, Repr

/-- Messages sent to the control (Electron) peer. -/
inductive ElectronMsg where
  | registrationStarted (tablet_state : String)
  | processCustomerRegistration (name : Option String)
  | processPurchase (barcode : String) (receipt : ParsedReceipt)
      (scanned_at : ℚ) (processed_at : ℚ)
  | tabletReset (tablet_state : String)
deriving DecidableEq, Repr

/-- The mutable state of `WebSocketManager`, with delivered-message logs. -/
structure WsState where
  tabletConn : Option Bool
  electronConn : Option Bool
  current_customer_scan : Option Scan
  tablet_state : String
  tabletOut : List TabletMsg
  electronOut : List ElectronMsg
deriving DecidableEq, Repr

/-- Mirror of `send_to_tablet`: no connection means a silent no-op; a
raising send is logged and clears the slot (fail-soft); a healthy send
delivers the message. -/
def send_to_tablet (st : WsState) (m : TabletMsg) : WsState :=
  match st.tabletConn with
  | none => st
  | some true => { st with tabletOut := st.tabletOut ++ [m] }
  | some false => { st with tabletConn := none }

/-- Mirror of `send_to_electron`, same fail-soft discipline. -/
def send_to_electron (st : WsState) (m : ElectronMsg) : WsState :=
  match st.electronConn with
  | none => st
  | some true => { st with electronOut := st.electronOut ++ [m] }
  | some false => { st with electronConn := none }

/-- Mirror of `_handle_customer_scan`: unconditionally overwrite the
single scan register, then show the processing indicator. -/
def handle_customer_scan (now : ℚ) (barcode : String) (st : WsState) : WsState :=
  let st := { st with current_customer_scan := some { barcode := barcode, scanned_at := now } }
  send_to_tablet st (.showCustomerInfo barcode)

/-- Mirror of `_handle_receipt_processed`: emit the purchase-complete
notification, then clear the scan register. `points` is the
`points_awarded` value found in the inbound message payload (0 when the
key is absent, per `.get("points_awarded", 0)`). -/
def handle_receipt_processed (receipt : ParsedReceipt) (points : ℚ) (st : WsState) : WsState :=
  let st := send_to_tablet st (.showPurchaseComplete receipt points)
  { st with current_customer_scan := none }

/-- Mirror of `_reset_to_idle`. -/
def reset_to_idle (st : WsState) : WsState :=
  let st := { st with tablet_state := "idle", current_customer_scan := none }
  let st := send_to_tablet st (.setState "idle")
  send_to_electron st (.tabletReset "idle")

/-- Mirror of `_handle_customer_registration`. Every operation in the
`try` body absorbs its own faults (the two sends are fail-soft and the
sleep cannot raise), so the `except` branch that would emit `show_error`
without resetting is unreachable; the body forwards the form data,
shows the success confirmation, sleeps and resets. `name` is the
`name` entry of the submitted form data, if present. -/
def handle_customer_registration (name : Option String) (st : WsState) : WsState :=
  let st := send_to_electron st (.processCustomerRegistration name)
  let st := send_to_tablet st
    (.showConfirmation ("Welcome, " ++ name.getD "Customer" ++ "!") "success")
  reset_to_idle st

/-! ## Receipt monitor (`receipt_monitor.py`). -/

/-- Mirror of `_match_customer_scan`: a pure read of the scan register
that reports the scan when the elapsed time is within the window. The
source guards against a missing or unparseable `scanned_at`; both
branches are dead here because `_handle_customer_scan` always stores a
timestamp. -/
def match_customer_scan (sett : Settings) (now : ℚ) (st : WsState) : Option Scan :=
  match st.current_customer_scan with
  | none => none
  | some scan =>
    if now - scan.scanned_at ≤ sett.receipt_match_window_seconds then some scan
    else none

/-- Mirror of `_process_customer_purchase`: hand the correlated purchase
to the control peer (the scoring/persistence collaborator). -/
def process_customer_purchase (now : ℚ) (scan : Scan) (receipt : ParsedReceipt)
    (st : WsState) : WsState :=
  send_to_electron st (.processPurchase scan.barcode receipt scan.scanned_at now)

/-- Modelled from the spec: the scoring/persistence collaborator is the
control-peer (Electron) application, whose code is not among the backend
sources; per the specification it receives the hand-off, fills in the
awarded-points placeholder, and reports completion back through the
`receipt_processed` message, which the coordinator handles with
`_handle_receipt_processed`. `points` is the value the collaborator
computed. -/
def collaborator_round_trip (receipt : ParsedReceipt) (points : ℚ) (st : WsState) : WsState :=
  handle_receipt_processed receipt points st

/-- One full correlation round for a validated receipt record: the
matching check of `_match_customer_scan`, then on success the hand-off of
`_process_customer_purchase` followed by the collaborator completion
round trip. -/
def match_and_complete (sett : Settings) (now points : ℚ) (receipt : ParsedReceipt)
    (st : WsState) : WsState :=
  match match_customer_scan sett now st with
  | none => st
  | some scan =>
    collaborator_round_trip receipt points (process_customer_purchase now scan receipt st)

/-- Mirror of `ReceiptMonitor.add_test_receipt`: parse unconditionally,
then fire the purchase hand-off whenever any scan is live — no validity
check and no window check (it never calls `_match_customer_scan`), and
the scan register is left untouched. -/
def add_test_receipt (now : ℚ) (receipt_content : String) (st : WsState) :
    ParsedReceipt × WsState :=
  let parsed := parse_receipt none receipt_content
  match st.current_customer_scan with
  | some scan => (parsed, process_customer_purchase now scan parsed st)
  | none => (parsed, st)

/-- The characters Windows and POSIX `os.path.basename` split on. -/
def pathSep (c : Char) : Bool :=
  c = '/' || c = '\\'

/-- Mirror of `os.path.basename`: the part after the last separator. -/
def basenameOf (path : String) : List Char :=
  path.data.foldl (fun acc c => if pathSep c then [] else acc ++ [c]) []

/-- Mirror of `_is_receipt_file`: lowercased basename must end in one of
the allow-listed suffixes. -/
def is_receipt_file (path : String) : Bool :=
  let filename := pyLower (basenameOf path)
  [".txt".data, ".prn".data, ".spl".data, ".log".data].any
    (fun ext => ext.isSuffixOf filename)

/-- Mirror of `_read_receipt_file`, with the surrounding I/O abstracted:
`fs` maps a path to the text content its bytes decode to (the encoding
cascade and the printable-byte fallback both end with the same
non-blank-after-strip acceptance test), or `none` for an unreadable
artifact. -/
def read_receipt_file (fs : String → Option String) (path : String) : Option String :=
  (fs path).bind fun content =>
    if (pyStrip content.data).isEmpty then none else some content

/-- Observable pipeline steps of `_process_file`, used to state ordering
and at-most-once properties. -/
inductive Event where
  | extractText (path : String)
  | addProcessed (path : String)
  | matchAttempt (path : String)
  | purchase (path : String) (barcode : String)
  | noMatch (path : String)
deriving DecidableEq, Repr

/-- The mutable state of `ReceiptMonitor` relevant to the claims: the
processed-path set (kept in insertion order; only membership and size are
observable) plus the coordinator state it drives. -/
structure MonState where
  processed_files : List String
  ws : WsState
deriving DecidableEq, Repr

/-- Mirror of `_process_file`, sequentialized (the debounce sleep is a
no-op here), returning the new state and the trace of observable steps in
execution order. The body: skip if already processed; skip non-receipt
suffixes; read (skip unreadable or blank artifacts); parse; drop invalid
text; only then mark the path processed; attempt the customer match and
on success fire the purchase hand-off. -/
def process_file (sett : Settings) (now : ℚ) (fs : String → Option String)
    (st : MonState) (path : String) : MonState × List Event :=
  if path ∈ st.processed_files then (st, [])
  else if ¬ is_receipt_file path then (st, [])
  else
    match read_receipt_file fs path with
    | none => (st, [])
    | some content =>
      let parsed := parse_receipt none content
      if ¬ is_valid_receipt content then (st, [.extractText path])
      else
        let st := { st with processed_files := st.processed_files ++ [path] }
        match match_customer_scan sett now st.ws with
        | some scan =>
          ({ st with ws := process_customer_purchase now scan parsed st.ws },
           [.extractText path, .addProcessed path, .matchAttempt path,
            .purchase path scan.barcode])
        | none =>
          (st, [.extractText path, .addProcessed path, .matchAttempt path, .noMatch path])

/-- Mirror of the housekeeping step inside `_process_pending_receipts`:
`self.processed_files = set(list(self.processed_files)[-500:])` once the
set holds more than 1000 entries. Its argument is the set in the
iteration order Python happens to expose, which is an unspecified
permutation of the insertion order. -/
def trim_processed_files (enum : List String) : List String :=
  if 1000 < enum.length then enum.drop (enum.length - 500) else enum

/-! ## Concrete fixtures used by witnesses and counterexamples. -/

/-- The receipt text of the specification scenario. -/
def scenarioText : String :=
  "Store ABC\nMilk 3.50\nBread 2.00\nSUBTOTAL 5.50\nTAX 0.40\nTOTAL: $5.90\nThank you\nReceipt #R1001"

/-- Raw length 20, stripped length 14, two keywords, positive total. -/
def cexText : String :=
  "tax total 1.00      "

/-- Both peers connected and healthy, no pending scan. -/
def wsHealthy : WsState :=
  { tabletConn := some true, electronConn := some true, current_customer_scan := none,
    tablet_state := "idle", tabletOut := [], electronOut := [] }

/-- Healthy peers with a pending scan recorded at time 0. -/
def wsScanned : WsState :=
  { wsHealthy with current_customer_scan := some { barcode := "LOY1234", scanned_at := 0 } }

/-- Healthy tablet, broken control-peer reference (its send raises). -/
def wsBrokenElectron : WsState :=
  { wsHealthy with electronConn := some false }

/-- A scan recorded at time 0, observed far outside the window. -/
def wsStale : WsState :=
  { wsHealthy with current_customer_scan := some { barcode := "X", scanned_at := 0 } }

/-- Fresh monitor over a healthy coordinator. -/
def mon0 : MonState :=
  { processed_files := [], ws := wsHealthy }

/-- A monitored surface holding one valid receipt artifact. -/
def fs1 : String → Option String :=
  fun p => if p = "r.txt" then some scenarioText else none

/-- A monitored surface holding one artifact whose text is not a valid
receipt. -/
def fsJunk : String → Option String :=
  fun p => if p = "junk.txt" then some "short" else none

/-- Distinct path strings: `pathRep i` is i+1 copies of one character;
`pathRep 0` is the first (oldest) path inserted, `pathRep 1000` the most
recent. -/
def pathRep (i : Nat) : String :=
  String.mk (List.replicate (i + 1) 'p')

/-- 1001 paths in insertion order. -/
def insertedPaths : List String :=
  (List.range 1001).map pathRep

/-! ## Small laws of the fail-soft senders. -/

theorem send_to_tablet_scan (st : WsState) (m : TabletMsg) :
    (send_to_tablet st m).current_customer_scan = st.current_customer_scan := by
  unfold send_to_tablet
  rcases h : st.tabletConn with _ | b
  · rfl
  · cases b <;> rfl

theorem send_to_electron_scan (st : WsState) (m : ElectronMsg) :
    (send_to_electron st m).current_customer_scan = st.current_customer_scan := by
  unfold send_to_electron
  rcases h : st.electronConn with _ | b
  · rfl
  · cases b <;> rfl

/-! ## Evaluation helpers shared by several claims. -/

theorem extract_total_scenario : extract_total scenarioText.data = 11 / 2 := by
  have h : extract_total scenarioText.data = moneyValue ['5'] ['5', '0'] := rfl
  have h1 : natOfDigits ['5'] = 5 := rfl
  have h2 : natOfDigits ['5', '0'] = 50 := rfl
  rw [h, moneyValue, h1, h2]
  norm_num

theorem extract_total_cex_eq_one : extract_total cexText.data = 1 := by
  have h : extract_total cexText.data = moneyValue ['1'] ['0', '0'] := rfl
  have h1 : natOfDigits ['1'] = 1 := rfl
  have h2 : natOfDigits ['0', '0'] = 0 := rfl
  rw [h, moneyValue, h1, h2]
  norm_num

theorem is_valid_scenario : is_valid_receipt scenarioText = true := by
  unfold is_valid_receipt
  rw [if_neg (by decide)]
  rw [extract_total_scenario]
  have h2 : decide (2 ≤ indicatorsFound scenarioText.data) = true := by decide
  rw [h2]
  simp only [Bool.true_and, decide_eq_true_eq]
  norm_num

/-! ## Structural facts about the total extractor, for C5. -/

theorem searchFrom_some {α : Type} {f : List Char → Option α} {l : List Char} {a : α}
    (h : searchFrom f l = some a) : ∃ s, f s = some a := by
  induction l with
  | nil => exact ⟨[], h⟩
  | cons c cs ih =>
    rw [searchFrom] at h
    cases hf : f (c :: cs) with
    | some r =>
      rw [hf] at h
      exact ⟨c :: cs, hf.trans h⟩
    | none =>
      rw [hf] at h
      exact ih h

theorem moneyValue_nonneg (ds cents : List Char) : 0 ≤ moneyValue ds cents := by
  unfold moneyValue
  positivity

theorem matchTotalAt_nonneg {label s : List Char} {q : ℚ}
    (h : matchTotalAt label s = some q) : 0 ≤ q := by
  unfold matchTotalAt at h
  rw [Option.bind_eq_some] at h
  obtain ⟨r1, -, h⟩ := h
  rw [Option.map_eq_some'] at h
  obtain ⟨m, -, rfl⟩ := h
  exact moneyValue_nonneg _ _

theorem totalSearch_nonneg (text : List Char) (ls : List (List Char)) :
    0 ≤ totalSearch text ls := by
  induction ls with
  | nil => exact le_refl 0
  | cons l ls ih =>
    rw [totalSearch]
    cases h : searchFrom (matchTotalAt l) text with
    | some q =>
      obtain ⟨s, hs⟩ := searchFrom_some h
      exact matchTotalAt_nonneg hs
    | none => exact ih

theorem extract_total_nonneg (text : List Char) : 0 ≤ extract_total text :=
  totalSearch_nonneg text totalLabels

/-! ## Claims. -/

/-- C5: the extractor is a total function (its fault branch is a value,
not a propagated error): for every input and every internal fault the
result has a non-negative total and preserves the raw text, and on a
fault the record carries total 0 and the fault message in the error
field. -/
theorem extract_never_fails_contract (fault : Option String) (T : String) :
    0 ≤ (parse_receipt fault T).total ∧
    (parse_receipt fault T).raw_text = T ∧
    (∀ e, fault = some e →
      (parse_receipt fault T).total = 0 ∧ (parse_receipt fault T).error = some e) := by
  cases fault with
  | none =>
    refine ⟨?_, rfl, ?_⟩
    · exact extract_total_nonneg T.data
    · intro e he
      cases he
  | some e0 =>
    refine ⟨le_refl 0, rfl, ?_⟩
    intro e he
    cases he
    exact ⟨rfl, rfl⟩

/-- C5 witness: a faulting parse of a concrete text yields the degraded
record; the normal parse of the same text has a non-negative total. -/
theorem extract_never_fails_contract_witness :
    (parse_receipt (some "boom") "z").total = 0 ∧
    (parse_receipt (some "boom") "z").error = some "boom" ∧
    (parse_receipt (some "boom") "z").raw_text = "z" ∧
    0 ≤ (parse_receipt none "z").total :=
  ⟨((extract_never_fails_contract (some "boom") "z").2.2 "boom" rfl).1,
   ((extract_never_fails_contract (some "boom") "z").2.2 "boom" rfl).2,
   (extract_never_fails_contract (some "boom") "z").2.1,
   (extract_never_fails_contract none "z").1⟩

/-- The validity predicate exactly as the claim states it, kept for
comparison with the implementation: it measures the RAW text length,
where the implementation measures the stripped length. -/
def isValidClaimStated (T : String) : Prop :=
  20 ≤ T.length ∧ 2 ≤ indicatorsFound T.data ∧ 0 < extract_total T.data

/-- C6 counterexample: a text of raw length 20 (stripped length 14) with
two keywords and a positive total satisfies the claimed predicate but is
rejected by the implementation, so the claimed if-and-only-if fails. -/
theorem is_valid_raw_length_cex :
    isValidClaimStated cexText ∧ is_valid_receipt cexText = false := by
  refine ⟨⟨by decide, by decide, ?_⟩, rfl⟩
  rw [extract_total_cex_eq_one]
  norm_num

/-- C6 amended: the implementation accepts exactly the texts whose
STRIPPED length is at least 20 with at least two of the eight keywords
and a positive extracted total; and the Surface Monitor never hands a
text failing this predicate to the matcher. -/
theorem is_valid_characterization :
    (∀ T : String, is_valid_receipt T = true ↔
      (20 ≤ (pyStrip T.data).length ∧ 2 ≤ indicatorsFound T.data ∧
        0 < extract_total T.data)) ∧
    (∀ sett now fs (st : MonState) path content, fs path = some content →
      is_valid_receipt content = false →
      Event.matchAttempt path ∉ (process_file sett now fs st path).2) := by
  constructor
  · intro T
    unfold is_valid_receipt
    split_ifs with hg
    · refine iff_of_false (by simp) ?_
      intro hc
      have hlen20 : 20 ≤ (pyStrip T.data).length := hc.1
      by_cases he : T.isEmpty = true
      · have hT : T = "" := (String.isEmpty_iff T).mp he
        subst hT
        have h0 : (pyStrip ("" : String).data).length = 0 := rfl
        omega
      · have he2 : T.isEmpty = false := by
          revert he
          cases T.isEmpty <;> simp
        rw [he2, Bool.false_or] at hg
        have hlt := of_decide_eq_true hg
        omega
    · have hg2 : 20 ≤ (pyStrip T.data).length := by
        by_contra hlt
        push_neg at hlt
        exact hg (by simp [hlt])
      simp only [Bool.and_eq_true, decide_eq_true_eq]
      exact ⟨fun h => ⟨hg2, h.1, h.2⟩, fun h => ⟨h.2.1, h.2.2⟩⟩
  · intro sett now fs st path content hfs hval
    by_cases h1 : path ∈ st.processed_files
    · simp [process_file, h1]
    · by_cases h2 : is_receipt_file path = true
      · cases hr : read_receipt_file fs path with
        | none => simp [process_file, h1, h2, hr]
        | some c =>
          have hc : c = content := by
            rw [read_receipt_file, hfs, Option.some_bind] at hr
            split at hr
            · cases hr
            · exact (Option.some.inj hr).symm
          subst hc
          simp [process_file, h1, h2, hr, hval]
      · simp [process_file, h1, h2]

/-- C6 witness: the scenario text passes the characterization, and an
invalid artifact on the monitored surface never reaches the matcher. -/
theorem is_valid_characterization_witness :
    is_valid_receipt scenarioText = true ∧
    Event.matchAttempt "junk.txt" ∉ (process_file settings 0 fsJunk mon0 "junk.txt").2 := by
  constructor
  · exact (is_valid_characterization.1 scenarioText).mpr
      ⟨by decide, by decide, by rw [extract_total_scenario]; norm_num⟩
  · exact is_valid_characterization.2 settings 0 fsJunk mon0 "junk.txt" "short" rfl rfl

/-- C7 counterexample: on the scenario text the extractor returns total
5.50, not the claimed 5.90 — the first case-insensitive occurrence of the
TOTAL pattern in the text lies inside the SUBTOTAL line. -/
theorem scenario_total_cex :
    (parse_receipt none scenarioText).total = 11 / 2 ∧
    (parse_receipt none scenarioText).total ≠ 59 / 10 := by
  have h : (parse_receipt none scenarioText).total = extract_total scenarioText.data := rfl
  rw [h, extract_total_scenario]
  norm_num

/-- C7 amended: the scenario extraction yields total 5.50 (the SUBTOTAL
line wins the leftmost pattern search), external id R1001, exactly the
two line items Milk 3.50 and Bread 2.00 in order, item count 2, and the
text is valid. -/
theorem scenario_extraction :
    (parse_receipt none scenarioText).total = 11 / 2 ∧
    (parse_receipt none scenarioText).receipt_id = some "R1001" ∧
    (parse_receipt none scenarioText).items.map (fun it => (it.name, it.price)) =
      [("Milk", 7 / 2), ("Bread", 2)] ∧
    (parse_receipt none scenarioText).items_count = 2 ∧
    is_valid_receipt scenarioText = true := by
  refine ⟨?_, rfl, ?_, rfl, is_valid_scenario⟩
  · have h : (parse_receipt none scenarioText).total = extract_total scenarioText.data := rfl
    rw [h, extract_total_scenario]
  · have h : (parse_receipt none scenarioText).items.map (fun it => (it.name, it.price)) =
        [("Milk", moneyValue ['3'] ['5', '0']), ("Bread", moneyValue ['2'] ['0', '0'])] := rfl
    have hmilk : moneyValue ['3'] ['5', '0'] = 7 / 2 := by
      have h1 : natOfDigits ['3'] = 3 := rfl
      have h2 : natOfDigits ['5', '0'] = 50 := rfl
      rw [moneyValue, h1, h2]
      norm_num
    have hbread : moneyValue ['2'] ['0', '0'] = 2 := by
      have h1 : natOfDigits ['2'] = 2 := rfl
      have h2 : natOfDigits ['0', '0'] = 0 := rfl
      rw [moneyValue, h1, h2]
      norm_num
    rw [h, hmilk, hbread]

/-- C3: with a live scan recorded at t0, the matcher declares a
correlation exactly when the elapsed time is at most the configured
window — inclusive at t0 + W, and failing at t0 + W + ε for every
positive ε — and a stale scan is left in place by the check (the full
matching round leaves the coordinator state untouched when there is no
match). -/
theorem match_window_boundary (sett : Settings) (b : String) (t0 : ℚ) (ws : WsState)
    (h : ws.current_customer_scan = some { barcode := b, scanned_at := t0 }) :
    (∀ now, match_customer_scan sett now ws = some { barcode := b, scanned_at := t0 } ↔
      now - t0 ≤ sett.receipt_match_window_seconds) ∧
    match_customer_scan sett (t0 + sett.receipt_match_window_seconds) ws =
      some { barcode := b, scanned_at := t0 } ∧
    (∀ ε : ℚ, 0 < ε →
      match_customer_scan sett (t0 + sett.receipt_match_window_seconds + ε) ws = none) ∧
    (∀ now points receipt, match_customer_scan sett now ws = none →
      match_and_complete sett now points receipt ws = ws) := by
  refine ⟨?_, ?_, ?_, ?_⟩
  · intro now
    simp only [match_customer_scan, h]
    split_ifs with h1
    · simp [h1]
    · simp [h1]
  · simp only [match_customer_scan, h]
    rw [if_pos (by linarith)]
  · intro ε hε
    simp only [match_customer_scan, h]
    rw [if_neg (by linarith)]
  · intro now points receipt hm
    simp [match_and_complete, hm]

/-- C3 witness: the default 30-second window matches a receipt arriving
exactly 30 seconds after the scan and rejects one a second later. -/
theorem match_window_boundary_witness :
    match_customer_scan settings 30 wsScanned =
      some { barcode := "LOY1234", scanned_at := 0 } ∧
    match_customer_scan settings 31 wsScanned = none := by
  have h := match_window_boundary settings "LOY1234" 0 wsScanned rfl
  refine ⟨?_, ?_⟩
  · have := h.2.1
    norm_num [settings] at this ⊢
    exact this
  · have := h.2.2.1 1 one_pos
    norm_num [settings] at this ⊢
    exact this

/-- C4: recording scan A and then scan B before any match leaves exactly
B in the single-slot register, and any later match can only ever report
B, never A. -/
theorem scan_overwrite_last_writer_wins (nowA nowB : ℚ) (A B : String) (ws : WsState) :
    (handle_customer_scan nowB B (handle_customer_scan nowA A ws)).current_customer_scan =
      some { barcode := B, scanned_at := nowB } ∧
    (∀ sett now,
      match_customer_scan sett now (handle_customer_scan nowB B (handle_customer_scan nowA A ws)) = none ∨
      match_customer_scan sett now (handle_customer_scan nowB B (handle_customer_scan nowA A ws)) =
        some { barcode := B, scanned_at := nowB }) := by
  have hscan : (handle_customer_scan nowB B (handle_customer_scan nowA A ws)).current_customer_scan =
      some { barcode := B, scanned_at := nowB } := by
    unfold handle_customer_scan
    rw [send_to_tablet_scan]
  refine ⟨hscan, ?_⟩
  intro sett now
  simp only [match_customer_scan, hscan]
  split_ifs with h1
  · right; rfl
  · left; rfl

/-- C2: when a valid receipt record matches the live pending scan (both
peers connected), the full correlation round clears the scan register,
hands the purchase to the persistence collaborator, emits the
purchase-complete notification, and a second identical receipt arriving
afterward finds no scan to match. -/
theorem match_completion_clears_scan (sett : Settings) (now points : ℚ)
    (receipt : ParsedReceipt) (ws : WsState) (scan : Scan)
    (hm : match_customer_scan sett now ws = some scan)
    (ht : ws.tabletConn = some true) (he : ws.electronConn = some true) :
    (match_and_complete sett now points receipt ws).current_customer_scan = none ∧
    (match_and_complete sett now points receipt ws).electronOut =
      ws.electronOut ++ [.processPurchase scan.barcode receipt scan.scanned_at now] ∧
    (match_and_complete sett now points receipt ws).tabletOut =
      ws.tabletOut ++ [.showPurchaseComplete receipt points] ∧
    (∀ now2, match_customer_scan sett now2 (match_and_complete sett now points receipt ws) = none) := by
  have hstep : match_and_complete sett now points receipt ws =
      { ws with
        electronOut := ws.electronOut ++ [.processPurchase scan.barcode receipt scan.scanned_at now],
        tabletOut := ws.tabletOut ++ [.showPurchaseComplete receipt points],
        current_customer_scan := none } := by
    unfold match_and_complete
    rw [hm]
    unfold collaborator_round_trip handle_receipt_processed process_customer_purchase
    unfold send_to_electron
    rw [he]
    unfold send_to_tablet
    simp only [ht]
  rw [hstep]
  refine ⟨rfl, rfl, rfl, ?_⟩
  intro now2
  rfl

/-- C2 witness: the scenario receipt arriving 10 seconds after the scan
completes the purchase, clears the scan, and a repeat arrival at any
later time matches nothing. -/
theorem match_completion_clears_scan_witness :
    (match_and_complete settings 10 5 (parse_receipt none scenarioText) wsScanned).current_customer_scan = none ∧
    (match_and_complete settings 10 5 (parse_receipt none scenarioText) wsScanned).tabletOut =
      [.showPurchaseComplete (parse_receipt none scenarioText) 5] ∧
    (∀ now2, match_customer_scan settings now2
      (match_and_complete settings 10 5 (parse_receipt none scenarioText) wsScanned) = none) := by
  have hm : match_customer_scan settings 10 wsScanned =
      some { barcode := "LOY1234", scanned_at := 0 } := by
    simp only [match_customer_scan, wsScanned, wsHealthy, settings]
    rw [if_pos (by norm_num)]
  have h := match_completion_clears_scan settings 10 5 (parse_receipt none scenarioText)
    wsScanned { barcode := "LOY1234", scanned_at := 0 } hm rfl rfl
  exact ⟨h.1, h.2.2.1, h.2.2.2⟩

/-- C10: the manual injection entry point fires the purchase hand-off for
every receipt text and every live scan — it consults neither the validity
predicate nor the matching window (the statement holds for arbitrary
content and arbitrary scan age), and it leaves the pending scan in
place. -/
theorem test_injection_unconditional (now : ℚ) (content : String) (ws : WsState) (scan : Scan)
    (h : ws.current_customer_scan = some scan) (he : ws.electronConn = some true) :
    (add_test_receipt now content ws).1 = parse_receipt none content ∧
    (add_test_receipt now content ws).2.electronOut =
      ws.electronOut ++ [.processPurchase scan.barcode (parse_receipt none content) scan.scanned_at now] ∧
    (add_test_receipt now content ws).2.current_customer_scan = some scan := by
  unfold add_test_receipt
  rw [h]
  unfold process_customer_purchase send_to_electron
  rw [he]
  exact ⟨rfl, rfl, h⟩

/-- C10 witness: an invalid receipt text and a scan far older than the
window still produce the purchase hand-off, and the scan survives. -/
theorem test_injection_unconditional_witness :
    is_valid_receipt "x" = false ∧
    settings.receipt_match_window_seconds < 1000 - 0 ∧
    (add_test_receipt 1000 "x" wsStale).2.electronOut =
      [.processPurchase "X" (parse_receipt none "x") 0 1000] ∧
    (add_test_receipt 1000 "x" wsStale).2.current_customer_scan =
      some { barcode := "X", scanned_at := 0 } := by
  have h := test_injection_unconditional 1000 "x" wsStale
    { barcode := "X", scanned_at := 0 } rfl rfl
  exact ⟨by decide, by norm_num [settings], h.2.1, h.2.2⟩

/-- Full evaluation of one monitor pass over the scenario artifact with
no pending scan: the extraction step comes first, the processed-set
insertion second. -/
theorem process_file_scenario_trace :
    process_file settings 0 fs1 mon0 "r.txt" =
      ({ processed_files := ["r.txt"], ws := wsHealthy },
       [Event.extractText "r.txt", Event.addProcessed "r.txt",
        Event.matchAttempt "r.txt", Event.noMatch "r.txt"]) := by
  unfold process_file
  rw [if_neg (by simp [mon0])]
  rw [if_neg (by decide)]
  have hr : read_receipt_file fs1 "r.txt" = some scenarioText := rfl
  simp only [hr]
  rw [if_neg (by simp [is_valid_scenario])]
  have hm : match_customer_scan settings 0
      ({ mon0 with processed_files := mon0.processed_files ++ ["r.txt"] }).ws = none := rfl
  simp only [hm]
  rfl

/-- C1 counterexample: on a fresh valid artifact the extraction is the
first observable step and the processed-set insertion only the second,
refuting the claim that the path is added to the processed set before
the Text Extractor runs on its content. -/
theorem extraction_precedes_marking_cex :
    (process_file settings 0 fs1 mon0 "r.txt").2.indexOf (Event.extractText "r.txt") = 0 ∧
    (process_file settings 0 fs1 mon0 "r.txt").2.indexOf (Event.addProcessed "r.txt") = 1 := by
  rw [process_file_scenario_trace]
  exact ⟨rfl, rfl⟩

/-- C1 amended: the processed-set entry for a path is created right
after its extraction and validation succeed — never before the extractor
runs — and while the entry is retained a duplicate notification for the
path performs nothing at all, so the path is extracted at most once. -/
theorem mark_after_extract_once (sett : Settings) (now now2 : ℚ)
    (fs : String → Option String) (st : MonState) (path : String)
    (h : Event.addProcessed path ∈ (process_file sett now fs st path).2) :
    (∃ rest, (process_file sett now fs st path).2 =
      Event.extractText path :: Event.addProcessed path :: rest) ∧
    process_file sett now2 fs (process_file sett now fs st path).1 path =
      ((process_file sett now fs st path).1, []) := by
  by_cases h1 : path ∈ st.processed_files
  · simp [process_file, h1] at h
  · by_cases h2 : is_receipt_file path = true
    · cases hr : read_receipt_file fs path with
      | none => simp [process_file, h1, h2, hr] at h
      | some c =>
        by_cases hv : is_valid_receipt c = true
        · have hmem2 : path ∈ (st.processed_files ++ [path]) := by simp
          cases hm : match_customer_scan sett now st.ws with
          | some scan =>
            have hpf : process_file sett now fs st path =
                (({ processed_files := st.processed_files ++ [path],
                    ws := process_customer_purchase now scan (parse_receipt none c) st.ws } :
                    MonState),
                 [.extractText path, .addProcessed path, .matchAttempt path,
                  .purchase path scan.barcode]) := by
              simp [process_file, h1, h2, hr, hv, hm]
            rw [hpf]
            exact ⟨⟨_, rfl⟩, by simp [process_file, hmem2]⟩
          | none =>
            have hpf : process_file sett now fs st path =
                (({ processed_files := st.processed_files ++ [path], ws := st.ws } : MonState),
                 [.extractText path, .addProcessed path, .matchAttempt path,
                  .noMatch path]) := by
              simp [process_file, h1, h2, hr, hv, hm]
            rw [hpf]
            exact ⟨⟨_, rfl⟩, by simp [process_file, hmem2]⟩
        · simp [process_file, h1, h2, hr, hv] at h
    · simp [process_file, h1, h2] at h

/-- C1 witness: the scenario artifact is marked processed on its first
pass, and a second notification for the same path performs nothing. -/
theorem mark_after_extract_once_witness :
    Event.addProcessed "r.txt" ∈ (process_file settings 0 fs1 mon0 "r.txt").2 ∧
    process_file settings 1 fs1 (process_file settings 0 fs1 mon0 "r.txt").1 "r.txt" =
      ((process_file settings 0 fs1 mon0 "r.txt").1, []) := by
  have hmem : Event.addProcessed "r.txt" ∈ (process_file settings 0 fs1 mon0 "r.txt").2 := by
    rw [process_file_scenario_trace]
    simp
  exact ⟨hmem, (mark_after_extract_once settings 0 1 fs1 mon0 "r.txt" hmem).2⟩

/-- C8 counterexample: with the control-peer reference broken (so the
forwarding of the submitted form faults inside the send), the
identity-facing peer is shown the SUCCESS confirmation followed by the
idle reset — no error confirmation appears. -/
theorem forwarding_fault_shows_success_cex :
    (handle_customer_registration (some "Ana") wsBrokenElectron).tabletOut =
      [TabletMsg.showConfirmation "Welcome, Ana!" "success", TabletMsg.setState "idle"] ∧
    (handle_customer_registration (some "Ana") wsBrokenElectron).tablet_state = "idle" :=
  ⟨rfl, rfl⟩

/-- C8 amended: a forwarding fault is absorbed by the fail-soft sender,
which clears the control-peer slot; the identity-facing peer is still
shown the success confirmation and the session auto-resets to Idle with
the pending scan cleared. -/
theorem forwarding_fault_absorbed (name : Option String) (st : WsState)
    (he : st.electronConn = some false) (ht : st.tabletConn = some true) :
    (handle_customer_registration name st).tabletOut =
      st.tabletOut ++
        [TabletMsg.showConfirmation ("Welcome, " ++ name.getD "Customer" ++ "!") "success",
         TabletMsg.setState "idle"] ∧
    (handle_customer_registration name st).tablet_state = "idle" ∧
    (handle_customer_registration name st).current_customer_scan = none ∧
    (handle_customer_registration name st).electronConn = none := by
  simp [handle_customer_registration, reset_to_idle, send_to_electron, send_to_tablet, he, ht]

/-- C8 witness: a concrete broken-forwarding run still ends idle with
the control-peer slot cleared. -/
theorem forwarding_fault_absorbed_witness :
    (handle_customer_registration (some "Bo") wsBrokenElectron).tablet_state = "idle" ∧
    (handle_customer_registration (some "Bo") wsBrokenElectron).electronConn = none :=
  ⟨(forwarding_fault_absorbed (some "Bo") wsBrokenElectron rfl rfl).2.1,
   (forwarding_fault_absorbed (some "Bo") wsBrokenElectron rfl rfl).2.2.2⟩

/-- C9: the housekeeping trim keeps 500 elements of the set in whatever
iteration order the Python set exposes, which need not be the insertion
order — with 1001 paths inserted in order and an enumeration that lists
them newest-first (a legal iteration order: a permutation of the
insertion order), the retained subset contains the OLDEST path and has
evicted the most recent one, contradicting the claimed
most-recently-added retention (and the comment in the source). -/
theorem trim_keeps_stale_paths :
    insertedPaths.reverse.Perm insertedPaths ∧
    pathRep 0 ∈ trim_processed_files insertedPaths.reverse ∧
    pathRep 1000 ∉ trim_processed_files insertedPaths.reverse := by
  have hlen : insertedPaths.length = 1001 := by
    rw [insertedPaths, List.length_map, List.length_range]
  have htrim : trim_processed_files insertedPaths.reverse =
      (insertedPaths.take 500).reverse := by
    unfold trim_processed_files
    rw [List.length_reverse, hlen, if_pos (by norm_num)]
    rw [List.drop_reverse, hlen]
  have htake : insertedPaths.take 500 = (List.range 500).map pathRep := by
    rw [insertedPaths, ← List.map_take, List.take_range]
    norm_num
  refine ⟨List.reverse_perm _, ?_, ?_⟩
  · rw [htrim, List.mem_reverse, htake, List.mem_map]
    exact ⟨0, List.mem_range.mpr (by norm_num), rfl⟩
  · rw [htrim, List.mem_reverse, htake, List.mem_map]
    rintro ⟨i, hi, hpi⟩
    have hl : (pathRep i).length = i + 1 := by
      show (List.replicate (i + 1) 'p').length = i + 1
      rw [List.length_replicate]
    have hl2 : (pathRep 1000).length = 1001 := by
      show (List.replicate (1000 + 1) 'p').length = 1001
      rw [List.length_replicate]
    rw [hpi, hl2] at hl
    rw [List.mem_range] at hi
    omega

end Store
